import Mathlib

/-!
Verification development for the Rusty-SGP4 repository (src/src/tle.rs,
src/src/sgp4.rs, src/src/main.rs).

Embedding conventions:
* A Rust `&str` is embedded as a `List Char` (the TLE format is ASCII, so
  Rust's byte indices and `char` positions coincide; the development only
  instantiates strings with ASCII content).
* Rust `f64` values are embedded as exact rationals (`ℚ`).  Every numeric
  literal appearing in the repository is a short decimal, exactly
  representable; the embedding therefore computes with the exact decimal
  values the source writes down.
* Fallible Rust operations (`unwrap`, out-of-bounds slicing) are embedded in
  `Option`: `none` models a panic, `some v` models normal return of `v`.
-/

namespace RustySgp4

/- The Batteries rational-number operations are irreducible by default,
which blocks `decide` from evaluating the exact-decimal arithmetic of the
embedding; restore default unfolding for them within this file. -/
attribute [local semireducible] Rat.add Rat.mul Rat.inv Rat.sub Rat.ofScientific

/-- Characters of a Rust string slice (ASCII content). -/
abbrev Str := List Char

/-- Rust pattern `'0'..='9'` on a character (code points 48 to 57). -/
def isDigitChar (c : Char) : Bool :=
  decide (48 ≤ c.toNat) && decide (c.toNat ≤ 57)

/-- Numeric value of a digit character, Rust's `(c as u8 - b'0')`. -/
def digitVal (c : Char) : Nat := c.toNat - 48

/-- Positional value of a digit string, the value computed by Rust's
integer/float parsing on a run of digit characters. -/
def natOfDigits : Str → Nat
  | [] => 0
  | c :: cs => digitVal c * 10 ^ cs.length + natOfDigits cs

/-- Whitespace predicate used by Rust's `str::trim`.  The TLE lines contain
only ASCII, for which Unicode white space is exactly this set. -/
def isWs (c : Char) : Bool :=
  c = ' ' || c = '\t' || c = '\n' || c = '\r'

/-- Rust's `str::trim`: remove leading and trailing whitespace. -/
def trim (l : Str) : Str :=
  ((l.dropWhile isWs).reverse.dropWhile isWs).reverse

/-- The substring `line[a..b]` of an ASCII string.  The parsers below only
slice lines whose length has already been checked to be 69, so the Rust
out-of-bounds panic cannot occur at these call sites; the one slice taken
before any length check (`line[68..69]` in `tle_checksum`) carries its own
explicit length guard in the embedding. -/
def slice (l : Str) (a b : Nat) : Str := (l.drop a).take (b - a)

/-- Rust `str::parse::<i32>` / `parse::<i64>`: an optional sign followed by
at least one digit.  Overflow is not modelled: every integer field of a TLE
line is at most five characters wide, so its value is below 10^5 and the
Rust parse cannot overflow `i32`/`i64` on the slices this development
feeds in. -/
def parseInt (l : Str) : Option Int :=
  if l.head? = some '+' then
    if l.tail ≠ [] ∧ l.tail.all isDigitChar then some (natOfDigits l.tail : Int) else none
  else if l.head? = some '-' then
    if l.tail ≠ [] ∧ l.tail.all isDigitChar then some (-(natOfDigits l.tail : Int)) else none
  else if l ≠ [] ∧ l.all isDigitChar then some (natOfDigits l : Int) else none

/-- Rust `str::parse::<char>`: succeeds exactly when the string holds one
character. -/
def parseChar (l : Str) : Option Char :=
  if l.length = 1 then l.head? else none

/-- Exponent suffix of a Rust float literal: `sign? digits` after the `e`,
applied to an already-parsed magnitude. -/
def parseExpDigits (mag : ℚ) (l : Str) : Option ℚ :=
  if l.head? = some '+' then
    if l.tail ≠ [] ∧ l.tail.all isDigitChar then some (mag * (10 : ℚ) ^ (natOfDigits l.tail : ℤ))
    else none
  else if l.head? = some '-' then
    if l.tail ≠ [] ∧ l.tail.all isDigitChar then
      some (mag * (10 : ℚ) ^ (-(natOfDigits l.tail : ℤ)))
    else none
  else if l ≠ [] ∧ l.all isDigitChar then some (mag * (10 : ℚ) ^ (natOfDigits l : ℤ)) else none

/-- Rest of a Rust float literal after the significand: either nothing or an
`e`/`E` exponent part. -/
def parseExpPart (mag : ℚ) (l : Str) : Option ℚ :=
  if l = [] then some mag
  else if l.head? = some 'e' ∨ l.head? = some 'E' then parseExpDigits mag l.tail
  else none

/-- Unsigned part of Rust `str::parse::<f64>`: `digits+ ('.' digits*)? exp?`
or `'.' digits+ exp?`, valued exactly in `ℚ`.  The special forms
`inf`/`infinity`/`nan` have no rational value and are outside the model
(no TLE field produces them); they are mapped to `none`. -/
def parseDecMag (l : Str) : Option ℚ :=
  let ip := l.takeWhile isDigitChar
  let r1 := l.drop ip.length
  if r1 = [] then
    if ip = [] then none else some (natOfDigits ip : ℚ)
  else if r1.head? = some '.' then
    let fp := r1.tail.takeWhile isDigitChar
    let r3 := r1.tail.drop fp.length
    if ip = [] ∧ fp = [] then none
    else parseExpPart ((natOfDigits ip : ℚ) + (natOfDigits fp : ℚ) / 10 ^ fp.length) r3
  else if ip = [] then none
  else parseExpPart (natOfDigits ip : ℚ) r1

/-- Rust `str::parse::<f64>` (exact-decimal model): optional sign, then a
decimal magnitude with optional exponent. -/
def parseF64 (l : Str) : Option ℚ :=
  if l.head? = some '+' then parseDecMag l.tail
  else if l.head? = some '-' then (parseDecMag l.tail).map (fun q => -q)
  else parseDecMag l

/-- Loop body of `calc_checksum` (tle.rs lines 385-391): digits add their
value, a minus sign adds 1, everything else is ignored. -/
def checksumStep (checksum : Nat) (c : Char) : Nat :=
  if isDigitChar c then checksum + digitVal c
  else if c = '-' then checksum + 1
  else checksum

/-- `calc_checksum` (tle.rs lines 380-398): fold the step over the first 68
characters of the line, then reduce modulo 10.  The Rust accumulator is an
`i32` that only ever grows by at most 9 per character, so `Nat` is exact. -/
def calc_checksum (line : Str) : Nat :=
  ((line.take 68).foldl checksumStep 0) % 10

/-- Checksum formula as the specification words it: the sum of the per
-character contributions over columns 1-68, modulo 10. -/
def checksumContrib (c : Char) : Nat :=
  if isDigitChar c then digitVal c else if c = '-' then 1 else 0

/-- Specification-side checksum (spec.md section 6): sum of digit characters
in columns 1-68, `-` counting 1, others ignored, modulo 10. -/
def checksumSpec (line : Str) : Nat :=
  (((line.take 68).map checksumContrib).sum) % 10

/-- `tle_checksum` (tle.rs lines 421-431).  The Rust body slices
`line[68..69]` with no prior length check — a panic (`none`) whenever the
line is shorter than 69 bytes — then parses that one-character slice as
`i32` (a panic unless column 69 is a digit) and compares it with
`calc_checksum line`. -/
def tle_checksum (l : Str) : Option Bool :=
  if l.length < 69 then none
  else
    (l[68]?).bind fun c =>
      if isDigitChar c then some (decide (calc_checksum l = digitVal c)) else none

/-- The `Tle` struct (tle.rs lines 22-76).  Field names and order follow the
source; `f64` fields are exact rationals, `i32`/`i64` fields are `Int`,
strings are character lists. -/
structure Tle where
  common_name : Str
  satellite_catalog_number : Int
  classification : Char
  international_designator : Str
  epoch_year : Int
  epoch_day : ℚ
  first_derivative_of_mean_motion : ℚ
  second_derivative_of_mean_motion : ℚ
  bstar : ℚ
  ephemeris_type : Int
  element_set_number : Int
  inclination : ℚ
  right_ascension_of_ascending_node : ℚ
  eccentricity : ℚ
  argument_of_perigee : ℚ
  mean_anomaly : ℚ
  mean_motion : ℚ
  revolution_number_at_epoch : Int
deriving DecidableEq

/-- The mutable zero record built at the top of `from_lines` (tle.rs lines
125-144): empty strings, classification `'0'`, every number zero. -/
def zeroTle : Tle where
  common_name := []
  satellite_catalog_number := 0
  classification := '0'
  international_designator := []
  epoch_year := 0
  epoch_day := 0
  first_derivative_of_mean_motion := 0
  second_derivative_of_mean_motion := 0
  bstar := 0
  ephemeris_type := 0
  element_set_number := 0
  inclination := 0
  right_ascension_of_ascending_node := 0
  eccentricity := 0
  argument_of_perigee := 0
  mean_anomaly := 0
  mean_motion := 0
  revolution_number_at_epoch := 0

/-- Line-1 field extraction of `from_lines` (tle.rs lines 165-204), run only
when `line1` has length exactly 69.  Each `unwrap`ped parse is an `Option`
bind; the two sign tests on columns 45 and 54 mirror the
`format!("-0.{}", ...)` / `format!("0.{}", ...)` branches, and the
unparenthesised exponent slices `[50..52]`, `[59..61]` are parsed without
trimming, exactly as in the source. -/
def parseLine1 (line1 : Str) (t : Tle) : Option Tle :=
  (parseInt (trim (slice line1 2 7))).bind fun scn =>
  (parseChar (trim (slice line1 7 8))).bind fun cls =>
  (parseInt (trim (slice line1 18 20))).bind fun ey =>
  (parseF64 (trim (slice line1 20 32))).bind fun ed =>
  (parseF64 (trim (slice line1 33 43))).bind fun fd =>
  (parseChar (slice line1 44 45)).bind fun sdSign =>
  (if sdSign = '-' then
      (parseF64 ('-' :: '0' :: '.' :: trim (slice line1 45 50))).bind fun m =>
      (parseInt (slice line1 50 52)).bind fun e =>
      some (m * (10 : ℚ) ^ e * 6)
    else
      (parseF64 ('0' :: '.' :: trim (slice line1 45 50))).bind fun m =>
      (parseInt (slice line1 50 52)).bind fun e =>
      some (m * (10 : ℚ) ^ e * 6)).bind fun sd =>
  (parseChar (slice line1 53 54)).bind fun bSign =>
  (if bSign = '-' then
      (parseF64 ('-' :: '0' :: '.' :: trim (slice line1 54 59))).bind fun m =>
      (parseInt (slice line1 59 61)).bind fun e =>
      some (m * (10 : ℚ) ^ e)
    else
      (parseF64 ('0' :: '.' :: trim (slice line1 54 59))).bind fun m =>
      (parseInt (slice line1 59 61)).bind fun e =>
      some (m * (10 : ℚ) ^ e)).bind fun bs =>
  (parseInt (slice line1 62 63)).bind fun et =>
  (parseInt (trim (slice line1 64 68))).bind fun esn =>
  some { t with
    satellite_catalog_number := scn
    classification := cls
    international_designator := trim (slice line1 9 17)
    epoch_year := ey
    epoch_day := ed
    first_derivative_of_mean_motion := fd * 2
    second_derivative_of_mean_motion := sd
    bstar := bs
    ephemeris_type := et
    element_set_number := esn }

/-- Line-2 field extraction of `from_lines` (tle.rs lines 211-231), run only
when `line2` has length exactly 69.  The eccentricity is parsed from
`format!("0.{}", ...)` applied to columns 27-33. -/
def parseLine2 (line2 : Str) (t : Tle) : Option Tle :=
  (parseF64 (trim (slice line2 8 16))).bind fun inc =>
  (parseF64 (trim (slice line2 17 25))).bind fun ra =>
  (parseF64 ('0' :: '.' :: trim (slice line2 26 33))).bind fun ecc =>
  (parseF64 (trim (slice line2 34 42))).bind fun ap =>
  (parseF64 (trim (slice line2 43 51))).bind fun ma =>
  (parseF64 (trim (slice line2 52 63))).bind fun mm =>
  (parseInt (trim (slice line2 63 68))).bind fun rev =>
  some { t with
    inclination := inc
    right_ascension_of_ascending_node := ra
    eccentricity := ecc
    argument_of_perigee := ap
    mean_anomaly := ma
    mean_motion := mm
    revolution_number_at_epoch := rev }

/-- `from_lines` (tle.rs lines 123-235).  Mirrors the source control flow:
first the short-circuit checksum guard (`!tle_checksum(line1) ||
!tle_checksum(line2)`) which on failure returns the zero record as built;
then the optional name line (1 to 24 characters, otherwise only logged);
then the two length-guarded field blocks, each leaving its fields at zero
when the line is not exactly 69 characters long.

`line0Tle` is the record state after the name-line step (tle.rs lines
152-159): the common name is stored only when the optional name line has 1
to 24 characters, otherwise the failure is merely logged. -/
def line0Tle (line0 : Option Str) : Tle :=
  match line0 with
  | some nl => if nl.length < 1 ∨ nl.length > 24 then zeroTle
               else { zeroTle with common_name := nl }
  | none => zeroTle

def from_lines (line1 line2 : Str) (line0 : Option Str) : Option Tle :=
  (tle_checksum line1).bind fun b1 =>
    if !b1 then some zeroTle
    else
      (tle_checksum line2).bind fun b2 =>
        if !b2 then some zeroTle
        else
          (if line1.length ≠ 69 then some (line0Tle line0)
           else parseLine1 line1 (line0Tle line0)).bind fun t1 =>
            if line2.length ≠ 69 then some t1 else parseLine2 line2 t1

/-- Name line of the reference ISS element set (tle.rs test, lines 471-473). -/
def issLine0 : Str := "ISS (ZARYA)".toList

/-- Line 1 of the reference ISS element set. -/
def issLine1 : Str :=
  "1 25544U 98067A   08264.51782528 -.00002182 -00100-2 -11606-4 0  2921".toList

/-- Line 2 of the reference ISS element set. -/
def issLine2 : Str :=
  "2 25544  51.6416 247.4627 0006703 130.5360 325.0288 15.72125391563537".toList

/-- The reference ISS line 1 with its trailing checksum digit altered from
1 to 2 (tle.rs test, line 457). -/
def issLine1Bad : Str :=
  "1 25544U 98067A   08264.51782528 -.00002182 -00100-2 -11606-4 0  2922".toList

/-- The record the decoder produces for the reference ISS element set, with
the exact rational values of every parsed field (cf. the assertions of
`test_tle_parsing_from_lines`, tle.rs lines 479-496). -/
def issTle : Tle where
  common_name := issLine0
  satellite_catalog_number := 25544
  classification := 'U'
  international_designator := "98067A".toList
  epoch_year := 8
  epoch_day := 26451782528 / 10 ^ 8
  first_derivative_of_mean_motion := -(4364 / 10 ^ 8)
  second_derivative_of_mean_motion := -(6 / 10 ^ 5)
  bstar := -(11606 / 10 ^ 9)
  ephemeris_type := 0
  element_set_number := 292
  inclination := 516416 / 10 ^ 4
  right_ascension_of_ascending_node := 2474627 / 10 ^ 4
  eccentricity := 6703 / 10 ^ 7
  argument_of_perigee := 130536 / 10 ^ 3
  mean_anomaly := 3250288 / 10 ^ 4
  mean_motion := 1572125391 / 10 ^ 8
  revolution_number_at_epoch := 56353

/-- The `Wgs` struct (sgp4.rs lines 23-44): World Geodetic System constants,
fields in source order. -/
structure Wgs where
  mu : ℚ
  r_earth_eq : ℚ
  j2 : ℚ
  j3 : ℚ
  j4 : ℚ
  tumin : ℚ
  xke : ℚ
deriving DecidableEq

/-- The `WGS72` constant (sgp4.rs lines 98-106), with the literal values of
the source. -/
def WGS72 : Wgs where
  mu := 398600.8
  r_earth_eq := 6378.135
  j2 := 0.001082616
  j3 := -0.00000253881
  j4 := -0.00000165597
  xke := 0.07436691613317
  tumin := 13.44683969695931

/-- The `WGS84` constant (sgp4.rs lines 126-134), with the literal values of
the source. -/
def WGS84 : Wgs where
  mu := 398600.4418
  r_earth_eq := 6378.137
  j2 := 0.00108262998905
  j3 := -0.00000253215306
  j4 := -0.00000161098761
  xke := 0.07436685316871
  tumin := 13.44685108204498

/-- The `Sgp4` struct (sgp4.rs lines 57-58).  In the source it is declared
with an empty body — it carries no fields whatsoever. -/
structure Sgp4 where
deriving DecidableEq

/-- The constant-set selection at the top of `init_sgp4` (sgp4.rs lines
274-278): start from `WGS84` and overwrite with the passed set if one was
provided. -/
def resolve_wgs : Option Wgs → Wgs
  | some wgs_passed => wgs_passed
  | none => WGS84

/-- `init_sgp4` (sgp4.rs lines 273-336).  The observable behaviour of the
source function: it selects a constant set (lines 274-278) and returns an
`Sgp4` value, which has no fields.  Every intermediate `let` binding of the
body (lines 280-327: element extraction, the Kozai-to-Brouwer recovery, the
atmospheric-drag coefficients, the zonal-harmonic rates) is a local value
that is never stored anywhere — `Sgp4` is empty — and that block does not
even compile as written (`n0` is unbound, the binding being `no`; the
exponents `2/3`, `3/2`, `-7/2` are integer-typed expressions passed to
`f64::powf`; the final `sgp4 = Sgp4;` lacks a `let`).  The embedding
therefore records the selection and the unconditionally returned empty
struct; there is no error path of any kind. -/
def init_sgp4 (tle : Tle) (wgs : Option Wgs) : Sgp4 :=
  let _wgs_sgp4 := resolve_wgs wgs
  let _bstar := tle.bstar
  Sgp4.mk

/-- The atmospheric-density parameter selection of `init_sgp4` (sgp4.rs
lines 300-309), as a function of the selected constants, the semi-major
axis `a0` and the eccentricity `e0`.  In the source, `rp = a0 * (1.0 - e0)`
and `hp = rp - wgs_sgp4.r_earth_eq`; `s` defaults to
`(78.0 + r_earth_eq) / r_earth_eq` and is overwritten in the two guarded
regimes.  These particular lines are well-typed Rust; they are, however,
dead code inside a function that does not compile and returns an empty
struct, and `rp` is measured in Earth radii while `r_earth_eq` is in km. -/
def select_s (wgs_sgp4 : Wgs) (a0 e0 : ℚ) : ℚ :=
  if 98 ≤ a0 * (1 - e0) - wgs_sgp4.r_earth_eq ∧ a0 * (1 - e0) - wgs_sgp4.r_earth_eq ≤ 156 then
    (a0 * (1 - e0) - 78) / wgs_sgp4.r_earth_eq
  else if a0 * (1 - e0) - wgs_sgp4.r_earth_eq < 98 then
    (20 + wgs_sgp4.r_earth_eq) / wgs_sgp4.r_earth_eq
  else
    (78 + wgs_sgp4.r_earth_eq) / wgs_sgp4.r_earth_eq

/-- A syntactically well-formed element record whose eccentricity, 2, lies
outside [0, 1). -/
def badEccTle : Tle :=
  { zeroTle with eccentricity := 2, mean_motion := 1572125391 / 10 ^ 8 }

/-- Folding the checksum step from any accumulator adds the sum of the
per-character contributions. -/
theorem foldl_checksumStep :
    ∀ (l : Str) (a : Nat), l.foldl checksumStep a = a + (l.map checksumContrib).sum
  | [], a => by simp
  | c :: cs, a => by
      have hstep : checksumStep a c = a + checksumContrib c := by
        unfold checksumStep checksumContrib
        split_ifs <;> omega
      rw [List.foldl_cons, hstep, foldl_checksumStep cs (a + checksumContrib c),
        List.map_cons, List.sum_cons]
      omega

/-- A digit character contributes at most 9. -/
theorem digitVal_le_nine {c : Char} (h : isDigitChar c = true) : digitVal c ≤ 9 := by
  unfold isDigitChar at h
  rw [Bool.and_eq_true, decide_eq_true_eq, decide_eq_true_eq] at h
  unfold digitVal
  omega

/-- The positional value of a digit string is below 10 to its length. -/
theorem natOfDigits_lt :
    ∀ {l : Str}, (∀ c ∈ l, isDigitChar c = true) → natOfDigits l < 10 ^ l.length
  | [], _ => by simp [natOfDigits]
  | c :: cs, h => by
      have hc : digitVal c ≤ 9 := digitVal_le_nine (h c (by simp))
      have hcs : natOfDigits cs < 10 ^ cs.length :=
        natOfDigits_lt fun d hd => h d (by simp [hd])
      have hm : digitVal c * 10 ^ cs.length ≤ 9 * 10 ^ cs.length :=
        Nat.mul_le_mul_right _ hc
      simp only [natOfDigits, List.length_cons, pow_succ]
      omega

/-- Parsing `"0." ++ f` for a digit string `f` produces exactly the value
of `f` scaled below 1. -/
theorem parseDecMag_zeroDot {f : Str} (h : ∀ c ∈ f, isDigitChar c = true) :
    parseDecMag ('0' :: '.' :: f) = some ((natOfDigits f : ℚ) / 10 ^ f.length) := by
  have htw : f.takeWhile isDigitChar = f := List.takeWhile_eq_self_iff.mpr h
  have h0 : isDigitChar '0' = true := by decide
  have hdot : isDigitChar '.' = false := by decide
  have hip : ('0' :: '.' :: f).takeWhile isDigitChar = ['0'] := by
    rw [List.takeWhile_cons, if_pos h0, List.takeWhile_cons, if_neg (by simp [hdot])]
  unfold parseDecMag
  simp only [hip, List.length_cons, List.length_nil, List.drop_succ_cons, List.drop_zero,
    List.head?_cons, List.tail_cons, htw, List.drop_length]
  simp [parseExpPart, natOfDigits, digitVal, show ('0'.toNat : ℕ) = 48 from rfl]

/-- The value parsed from `"0." ++ f` for a digit string `f` lies in [0, 1). -/
theorem parseF64_zeroDot_bound {f : Str} {q : ℚ}
    (hd : ∀ c ∈ f, isDigitChar c = true)
    (hp : parseF64 ('0' :: '.' :: f) = some q) : 0 ≤ q ∧ q < 1 := by
  have : parseF64 ('0' :: '.' :: f) = parseDecMag ('0' :: '.' :: f) := rfl
  rw [this, parseDecMag_zeroDot hd, Option.some.injEq] at hp
  subst hp
  constructor
  · positivity
  · rw [div_lt_one (by positivity)]
    exact_mod_cast natOfDigits_lt hd

/-- The line-1 field block never writes the eccentricity field. -/
theorem parseLine1_eccentricity {l : Str} {t t' : Tle}
    (h : parseLine1 l t = some t') : t'.eccentricity = t.eccentricity := by
  simp only [parseLine1, Option.bind_eq_some, Option.some.injEq] at h
  rcases h with ⟨scn, -, cls, -, ey, -, ed, -, fd, -, sdS, -, sd, -, bS, -, bs, -, et, -, esn, -,
    rfl⟩
  rfl

/-- The eccentricity field written by the line-2 block is the value parsed
from `"0."` prefixed to the trimmed columns 27-33. -/
theorem parseLine2_eccentricity {l : Str} {t t' : Tle}
    (h : parseLine2 l t = some t') :
    ∃ q, parseF64 ('0' :: '.' :: trim (slice l 26 33)) = some q ∧ t'.eccentricity = q := by
  simp only [parseLine2, Option.bind_eq_some, Option.some.injEq] at h
  rcases h with ⟨inc, -, ra, -, ecc, hecc, ap, -, ma, -, mm, -, rev, -, rfl⟩
  exact ⟨ecc, hecc, rfl⟩

/-- The record state after the name-line step has eccentricity zero. -/
theorem line0Tle_eccentricity (l0 : Option Str) : (line0Tle l0).eccentricity = 0 := by
  cases l0 with
  | none => rfl
  | some nl =>
      show (if nl.length < 1 ∨ nl.length > 24 then zeroTle
            else { zeroTle with common_name := nl }).eccentricity = 0
      split <;> rfl

/-- C1.  The claim states that `from_lines` aborts a malformed record with a
structured error and never returns a zero-filled or partially-valid `Tle`.
The code does the opposite: for the reference ISS line 1 with its checksum
digit altered (a checksum mismatch), `from_lines` logs and returns the
zero-filled record — mean motion 0, satellite number 0 — to the caller. -/
theorem claim_C1_counterexample :
    tle_checksum issLine1Bad = some false
    ∧ from_lines issLine1Bad issLine2 none = some zeroTle
    ∧ zeroTle.mean_motion = 0
    ∧ zeroTle.satellite_catalog_number = 0 := by decide

/-- C1 (amended).  Whenever checksum validation reports `false` for line 1,
or passes line 1 and reports `false` for line 2, `from_lines` returns the
zero-filled record `zeroTle`; no structured error is ever produced. -/
theorem claim_C1 (l1 l2 : Str) (l0 : Option Str)
    (h : tle_checksum l1 = some false ∨
      (tle_checksum l1 = some true ∧ tle_checksum l2 = some false)) :
    from_lines l1 l2 l0 = some zeroTle := by
  unfold from_lines
  rcases h with h | ⟨h1, h2⟩
  · rw [h]
    rfl
  · rw [h1]
    simp only [Option.some_bind, Bool.not_true, Bool.false_eq_true, if_false, h2]
    rfl

/-- C1 witness: a concrete record whose second line fails the checksum is
returned zero-filled. -/
theorem claim_C1_witness : from_lines issLine1 issLine1Bad none = some zeroTle :=
  claim_C1 issLine1 issLine1Bad none (Or.inr ⟨by decide, by decide⟩)

/-- C2.  The claim states that the initializer returns
`Result<Sgp4InitState, InitError>` and rejects eccentricities outside
[0, 1) with `InvalidElements`.  The code has no error channel at all: on a
record with eccentricity 2 it returns the (empty) `Sgp4` state. -/
theorem claim_C2_counterexample :
    ¬(0 ≤ badEccTle.eccentricity ∧ badEccTle.eccentricity < 1)
    ∧ init_sgp4 badEccTle none = Sgp4.mk := by
  exact ⟨by decide, rfl⟩

/-- C2 (amended).  `init_sgp4` has signature `(Tle, Option<Wgs>) -> Sgp4`
with no `Result`/error outcome; it returns the empty `Sgp4` state for every
input whatsoever, performing no validation of eccentricity or semi-major
axis. -/
theorem claim_C2 : ∀ (tle : Tle) (wgs : Option Wgs), init_sgp4 tle wgs = Sgp4.mk :=
  fun _ _ => rfl

/-- C3.  The claim states that the initializer recovers the Brouwer mean
motion and semi-major axis by the published iteration.  The recovery block
in the source (sgp4.rs lines 289-297) references the unbound name `n0`,
passes integer-typed exponents to `powf`, does not compile, and its results
are dead locals: the `Sgp4` value returned for the ISS element set is the
empty structure, which can hold no recovered mean motion or semi-major axis
(every `Sgp4` value is the empty structure). -/
theorem claim_C3 : init_sgp4 issTle none = Sgp4.mk ∧ ∀ s : Sgp4, s = Sgp4.mk :=
  ⟨rfl, fun s => by cases s; rfl⟩

/-- C4.  The claim states the initializer computes `hp = a0(1-e) - Re` and
selects `s` from the three regimes `hp < 98`, `98 ≤ hp ≤ 156`, `hp > 156`.
The selection text (sgp4.rs lines 300-309) does branch on those bounds
(first three conjuncts), but it subtracts `r_earth_eq` in kilometres from
`rp = a0(1-e0)` in Earth radii, so for every physically meaningful
semi-major axis (`0 < a0 ≤ 100` Earth radii) the `hp < 98` regime is the
only reachable one (fourth conjunct); and the whole computation is dead
code inside a non-compiling function returning the empty `Sgp4` (fifth
conjunct). -/
theorem claim_C4 :
    (∀ (w : Wgs) (a0 e0 : ℚ), a0 * (1 - e0) - w.r_earth_eq < 98 →
      select_s w a0 e0 = (20 + w.r_earth_eq) / w.r_earth_eq)
    ∧ (∀ (w : Wgs) (a0 e0 : ℚ),
        98 ≤ a0 * (1 - e0) - w.r_earth_eq → a0 * (1 - e0) - w.r_earth_eq ≤ 156 →
        select_s w a0 e0 = (a0 * (1 - e0) - 78) / w.r_earth_eq)
    ∧ (∀ (w : Wgs) (a0 e0 : ℚ), 156 < a0 * (1 - e0) - w.r_earth_eq →
        select_s w a0 e0 = (78 + w.r_earth_eq) / w.r_earth_eq)
    ∧ (∀ a0 e0 : ℚ, 0 < a0 → a0 ≤ 100 → 0 ≤ e0 →
        select_s WGS72 a0 e0 = (20 + WGS72.r_earth_eq) / WGS72.r_earth_eq)
    ∧ init_sgp4 issTle (some WGS72) = Sgp4.mk := by
  refine ⟨?_, ?_, ?_, ?_, rfl⟩
  · intro w a0 e0 h
    unfold select_s
    rw [if_neg (by rintro ⟨h1, -⟩; linarith), if_pos h]
  · intro w a0 e0 h1 h2
    unfold select_s
    rw [if_pos ⟨h1, h2⟩]
  · intro w a0 e0 h
    unfold select_s
    rw [if_neg (by rintro ⟨-, h2⟩; linarith), if_neg (by linarith)]
  · intro a0 e0 ha ha100 he
    have hmul : a0 * (1 - e0) ≤ a0 := by nlinarith [mul_nonneg ha.le he]
    have hre : WGS72.r_earth_eq = 6378.135 := rfl
    unfold select_s
    rw [if_neg (by rintro ⟨h1, -⟩; rw [hre] at h1; norm_num at h1; linarith),
      if_pos (by rw [hre]; norm_num; linarith)]

/-- C4 witness: a semi-major axis of one Earth radius with zero eccentricity
lands in the `hp < 98` regime. -/
theorem claim_C4_witness :
    select_s WGS72 1 0 = (20 + WGS72.r_earth_eq) / WGS72.r_earth_eq :=
  claim_C4.2.2.2.1 1 0 (by norm_num) (by norm_num) (by norm_num)

/-- C5.  The checksum of a TLE line is the sum of the digit characters of
columns 1-68 (digits by value, `-` counting 1, all else ignored) modulo 10
(first conjunct, relating the source fold to the specification sum);
validation succeeds exactly when that sum equals the digit in column 69
(second conjunct); the reference ISS line 1 has checksum 1 and validates,
and the same line with its trailing digit altered fails validation
(remaining conjuncts). -/
theorem claim_C5 :
    (∀ l : Str, calc_checksum l = checksumSpec l)
    ∧ (∀ (l : Str) (c : Char), l[68]? = some c → isDigitChar c = true →
        (tle_checksum l = some true ↔ calc_checksum l = digitVal c))
    ∧ calc_checksum issLine1 = 1
    ∧ tle_checksum issLine1 = some true
    ∧ tle_checksum issLine1Bad = some false := by
  refine ⟨?_, ?_, by decide, by decide, by decide⟩
  · intro l
    unfold calc_checksum checksumSpec
    rw [foldl_checksumStep, Nat.zero_add]
  · intro l c hc hdig
    have hlen : 68 < l.length := by
      obtain ⟨h, -⟩ := List.getElem?_eq_some.mp hc
      exact h
    unfold tle_checksum
    rw [if_neg (by omega), hc]
    simp [hdig]

/-- C5 witness: the general validation equivalence applied to the reference
ISS line 1 and its checksum digit. -/
theorem claim_C5_witness :
    tle_checksum issLine1 = some true ↔ calc_checksum issLine1 = digitVal '1' :=
  claim_C5.2.1 issLine1 '1' (by decide) (by decide)

/-- C6.  Parsing the reference ISS element set yields exactly the claimed
record: satellite number 25544, classification `U`, designator `98067A`,
epoch year 8, epoch day 264.51782528, inclination 51.6416, RAAN 247.4627,
eccentricity 0.0006703, argument of perigee 130.536, mean anomaly 325.0288,
mean motion 15.72125391, revolution number 56353. -/
theorem claim_C6 :
    from_lines issLine1 issLine2 (some issLine0) = some issTle
    ∧ issTle.satellite_catalog_number = 25544
    ∧ issTle.classification = 'U'
    ∧ issTle.international_designator = "98067A".toList
    ∧ issTle.epoch_year = 8
    ∧ issTle.epoch_day = 264.51782528
    ∧ issTle.inclination = 51.6416
    ∧ issTle.right_ascension_of_ascending_node = 247.4627
    ∧ issTle.eccentricity = 0.0006703
    ∧ issTle.argument_of_perigee = 130.536
    ∧ issTle.mean_anomaly = 325.0288
    ∧ issTle.mean_motion = 15.72125391
    ∧ issTle.revolution_number_at_epoch = 56353 := by decide

/-- C7.  The claim states every decoded record satisfies the invariant
0 ≤ e < 1, mean motion > 0, inclination in [0, pi], in radians.  The code
stores angles in degrees: the decoded ISS inclination is 51.6416, which
exceeds pi; and a checksum-failed record is returned zero-filled with mean
motion 0, violating positivity. -/
theorem claim_C7_counterexample :
    (from_lines issLine1 issLine2 (some issLine0)).map Tle.inclination
      = some (516416 / 10 ^ 4 : ℚ)
    ∧ Real.pi < ((516416 / 10 ^ 4 : ℚ) : ℝ)
    ∧ (from_lines issLine1Bad issLine2 (some issLine0)).map Tle.mean_motion = some 0 := by
  refine ⟨by decide, ?_, by decide⟩
  have h := Real.pi_lt_d2
  have hcast : ((516416 / 10 ^ 4 : ℚ) : ℝ) = 516416 / 10 ^ 4 := by push_cast; ring
  rw [hcast]
  nlinarith

/-- C7 (amended).  Of the stated invariant only the eccentricity bound
survives, and the decoder does enforce it: every record `from_lines`
returns (on any input whose trimmed line-2 eccentricity field consists of
digit characters, as the fixed-width format prescribes) has
0 ≤ eccentricity < 1.  Mean motion may be zero and angles are measured in
degrees, as the counterexample records. -/
theorem claim_C7 (l1 l2 : Str) (l0 : Option Str) (t : Tle)
    (hp : from_lines l1 l2 l0 = some t)
    (hd : ∀ c ∈ trim (slice l2 26 33), isDigitChar c = true) :
    0 ≤ t.eccentricity ∧ t.eccentricity < 1 := by
  have hzero : (0 : ℚ) ≤ zeroTle.eccentricity ∧ zeroTle.eccentricity < 1 := by decide
  unfold from_lines at hp
  cases hb1 : tle_checksum l1 with
  | none => rw [hb1] at hp; simp at hp
  | some b1 =>
      rw [hb1, Option.some_bind] at hp
      cases b1 with
      | false => simp only [Bool.not_false, if_true, Option.some.injEq] at hp; rw [← hp]
                 exact hzero
      | true =>
          simp only [Bool.not_true, Bool.false_eq_true, if_false] at hp
          cases hb2 : tle_checksum l2 with
          | none => rw [hb2] at hp; simp at hp
          | some b2 =>
              rw [hb2, Option.some_bind] at hp
              cases b2 with
              | false => simp only [Bool.not_false, if_true, Option.some.injEq] at hp
                         rw [← hp]; exact hzero
              | true =>
                  simp only [Bool.not_true, Bool.false_eq_true, if_false] at hp
                  rw [Option.bind_eq_some] at hp
                  obtain ⟨t1, ht1, ht2⟩ := hp
                  have h1ecc : t1.eccentricity = 0 := by
                    by_cases hl1 : l1.length ≠ 69
                    · rw [if_pos hl1, Option.some.injEq] at ht1
                      rw [← ht1]; exact line0Tle_eccentricity l0
                    · rw [if_neg hl1] at ht1
                      rw [parseLine1_eccentricity ht1]
                      exact line0Tle_eccentricity l0
                  by_cases hl2 : l2.length ≠ 69
                  · rw [if_pos hl2, Option.some.injEq] at ht2
                    rw [← ht2, h1ecc]
                    norm_num
                  · rw [if_neg hl2] at ht2
                    obtain ⟨q, hq, heq⟩ := parseLine2_eccentricity ht2
                    rw [heq]
                    exact parseF64_zeroDot_bound hd hq

/-- C7 witness: the decoded ISS record satisfies the surviving eccentricity
bound. -/
theorem claim_C7_witness : 0 ≤ issTle.eccentricity ∧ issTle.eccentricity < 1 :=
  claim_C7 issLine1 issLine2 (some issLine0) issTle (by decide) (by decide)

/-- C8.  The WGS-72 preset carries exactly the literal values
mu = 398600.8, Re = 6378.135, j2 = 0.001082616, j3 = -0.00000253881,
j4 = -0.00000165597, xke = 0.07436691613317, tumin = 13.44683969695931, and
the WGS-84 preset its own published literals. -/
theorem claim_C8 :
    WGS72.mu = 398600.8
    ∧ WGS72.r_earth_eq = 6378.135
    ∧ WGS72.j2 = 0.001082616
    ∧ WGS72.j3 = -0.00000253881
    ∧ WGS72.j4 = -0.00000165597
    ∧ WGS72.xke = 0.07436691613317
    ∧ WGS72.tumin = 13.44683969695931
    ∧ WGS84.mu = 398600.4418
    ∧ WGS84.r_earth_eq = 6378.137
    ∧ WGS84.j2 = 0.00108262998905
    ∧ WGS84.j3 = -0.00000253215306
    ∧ WGS84.j4 = -0.00000161098761
    ∧ WGS84.xke = 0.07436685316871
    ∧ WGS84.tumin = 13.44685108204498 :=
  ⟨rfl, rfl, rfl, rfl, rfl, rfl, rfl, rfl, rfl, rfl, rfl, rfl, rfl, rfl⟩

/-- C9.  The claim states `from_lines` panics on every input line shorter
than 69 characters.  Not on this one: when line 1 fails its checksum, the
short-circuit `||` returns the zero record before the short line 2 is ever
indexed, so `from_lines` returns a value. -/
theorem claim_C9_counterexample :
    ([] : Str).length < 69 ∧ from_lines issLine1Bad [] none = some zeroTle := by decide

/-- C9 (amended).  `from_lines` panics (no value) whenever line 1 is shorter
than 69 characters — the slice `line[68..69]` in `tle_checksum` precedes
any length check — and whenever line 1 validates and line 2 is shorter than
69 characters; `tle_checksum` itself is total only on lines of at least 69
characters, panicking on every shorter line.  Only a line-1 checksum
failure can mask a short line 2 (see the counterexample). -/
theorem claim_C9 :
    (∀ (l1 l2 : Str) (l0 : Option Str), l1.length < 69 → from_lines l1 l2 l0 = none)
    ∧ (∀ (l1 l2 : Str) (l0 : Option Str),
        tle_checksum l1 = some true → l2.length < 69 → from_lines l1 l2 l0 = none)
    ∧ (∀ l : Str, l.length < 69 → tle_checksum l = none) := by
  have hshort : ∀ l : Str, l.length < 69 → tle_checksum l = none := by
    intro l h
    unfold tle_checksum
    rw [if_pos h]
  refine ⟨?_, ?_, hshort⟩
  · intro l1 l2 l0 h
    unfold from_lines
    rw [hshort l1 h]
    rfl
  · intro l1 l2 l0 h1 h2
    unfold from_lines
    rw [h1, Option.some_bind]
    simp only [Bool.not_true, Bool.false_eq_true, if_false]
    rw [hshort l2 h2]
    rfl

/-- C9 witness: an empty line 1 makes `from_lines` panic. -/
theorem claim_C9_witness : from_lines [] issLine2 none = none :=
  claim_C9.1 [] issLine2 none (by decide)

/-- C10.  Passing no constant set to `init_sgp4` selects the WGS-84 preset
(sgp4.rs lines 274-278), so the call with `None` agrees with the call with
`Some(WGS84)` on every element record. -/
theorem claim_C10 :
    (∀ tle : Tle, init_sgp4 tle none = init_sgp4 tle (some WGS84))
    ∧ resolve_wgs none = WGS84 :=
  ⟨fun _ => rfl, rfl⟩

end RustySgp4
